import Mathlib

/-!
Verification of the snippet collection in django_improvements.py.

The file is a flat Python module made of sixteen independent tutorial
snippets. We embed, from the source:

* the module-level name-binding structure of the snippets (which top-level
  names each snippet binds, which external names it references, whether it
  is syntactically valid Python, and which exception classes it catches);
* the post-save signal receiver create_user_profile together with a model
  of the framework dispatch that invokes it on every save of a User row;
* the proxy-model manager EmployeeManager.get_queryset;
* the data-migration functions do_something (uppercase every Product name)
  and copy_data (copy every OldModel name into a fresh NewModel row);
* the abstract base declarations TimestampMixin and BaseModel and their
  concrete subclasses Author and Customer.

Python strings are modelled as lists of Unicode code points (List Nat);
the str.upper method is modelled on the ASCII letters, where it maps the
code points 97..122 to 65..90 and fixes everything else.
-/

/-! ## Module-level snippets and name binding

A snippet is described by the top-level names it binds, the names it
references without binding them, the exception classes it catches, and
whether its text parses as Python. Import statements rebind a name to the
same module object wherever they occur, so imported names are collected in
a single module-level import environment rather than per snippet. -/

structure Snippet where
  id : Nat
  binds : List String
  refs : List String
  handlers : List String
  parses : Bool
deriving DecidableEq

/-- Names bound by the import statements of the module
(lines 1 to 6, 72, 92 to 93, 161, 180 and 201 of the source). -/
def moduleImports : List String :=
  ["models", "F", "Q", "Count", "Case", "When",
   "post_save", "receiver", "ValidationError", "User", "migrations"]

/-- Snippet 1, model mixins: binds TimestampMixin and Author. -/
def snippet1 : Snippet :=
  Snippet.mk 1 ["TimestampMixin", "Author"] ["models"] [] true

/-- Snippet 2, model signals: binds UserProfile and create_user_profile. -/
def snippet2 : Snippet :=
  Snippet.mk 2 ["UserProfile", "create_user_profile"]
    ["models", "User", "receiver", "post_save"] [] true

/-- Snippet 3, model managers: binds ActiveProductManager and Product. -/
def snippet3 : Snippet :=
  Snippet.mk 3 ["ActiveProductManager", "Product"] ["models"] [] true

/-- Snippet 4, conditional expressions: binds Order. -/
def snippet4 : Snippet :=
  Snippet.mk 4 ["Order"] ["models", "User", "Case", "When", "F"] [] true

/-- Snippet 5, query expressions: binds books and references Book,
which no snippet and no import statement of the module defines. -/
def snippet5 : Snippet :=
  Snippet.mk 5 ["books"] ["Book", "Count", "Q"] [] true

/-- Snippet 6, migrations with RunPython: binds do_something and Migration. -/
def snippet6 : Snippet :=
  Snippet.mk 6 ["do_something", "Migration"] [] [] true

/-- Snippet 7, proxy models: binds EmployeeManager and Employee. -/
def snippet7 : Snippet :=
  Snippet.mk 7 ["EmployeeManager", "Employee"] ["models", "User"] [] true

/-- Snippet 8, multi-table inheritance: binds Person and rebinds Employee. -/
def snippet8 : Snippet :=
  Snippet.mk 8 ["Person", "Employee"] ["models"] [] true

/-- Snippet 9, abstract base classes: binds BaseModel and Customer. -/
def snippet9 : Snippet :=
  Snippet.mk 9 ["BaseModel", "Customer"] ["models"] [] true

/-- Snippet 10, database index optimization: rebinds Product. -/
def snippet10 : Snippet :=
  Snippet.mk 10 ["Product"] ["models"] [] true

/-- Snippet 11, squashing migrations: a bare command line (line 153),
which is not valid Python. -/
def snippet11 : Snippet :=
  Snippet.mk 11 [] [] [] false

/-- Snippet 12, data migrations: binds copy_data and rebinds Migration. -/
def snippet12 : Snippet :=
  Snippet.mk 12 ["copy_data", "Migration"] ["models", "migrations"] [] true

/-- Snippet 13, reversible RunPython operations: rebinds do_something,
binds undo_something and rebinds Migration; the two function bodies are
comments only (lines 183 and 186), so the text does not parse. -/
def snippet13 : Snippet :=
  Snippet.mk 13 ["do_something", "undo_something", "Migration"]
    ["migrations"] [] false

/-- Snippet 14, custom migration operations: binds CustomOperation and
rebinds Migration; the three method bodies are comments only, so the text
does not parse. -/
def snippet14 : Snippet :=
  Snippet.mk 14 ["CustomOperation", "Migration"] ["migrations"] [] false

/-- Snippet 15, dependency management: rebinds Migration. -/
def snippet15 : Snippet :=
  Snippet.mk 15 ["Migration"] ["migrations"] [] true

/-- Snippet 16, handling merge conflicts: prose lines (242 to 243),
which are not valid Python. -/
def snippet16 : Snippet :=
  Snippet.mk 16 [] [] [] false

/-- The sixteen snippets in the order they appear in the module. -/
def moduleSnippets : List Snippet :=
  [snippet1, snippet2, snippet3, snippet4, snippet5, snippet6, snippet7,
   snippet8, snippet9, snippet10, snippet11, snippet12, snippet13,
   snippet14, snippet15, snippet16]

/-- The module with snippets 3 and 10 exchanged: a reordering of
the sixteen snippets. -/
def moduleSnippetsReordered : List Snippet :=
  [snippet1, snippet2, snippet10, snippet4, snippet5, snippet6, snippet7,
   snippet8, snippet9, snippet3, snippet11, snippet12, snippet13,
   snippet14, snippet15, snippet16]

/-- One top-level assignment step: a snippet that binds the name n
rebinds it to its own definition (identified by the snippet id), and
otherwise leaves the current binding alone. -/
def bindStep (n : String) (acc : Option Nat) (s : Snippet) : Option Nat :=
  if n ∈ s.binds then some s.id else acc

/-- Sequential evaluation of a list of snippets: the final binding of the
name n is the definition made by the last snippet that binds n, if any. -/
def evalSnippets (l : List Snippet) (n : String) : Option Nat :=
  l.foldl (bindStep n) none

/-- A snippet is self-contained when every name it references is bound by
the snippet itself or by an import statement of the module. -/
def selfContained (s : Snippet) : Bool :=
  s.refs.all (fun n => s.binds.contains n || moduleImports.contains n)

/-- A snippet raises a failure of its own (rather than inherited framework
behaviour) when its text does not parse as Python or when it references a
name that nothing in the module defines. -/
def raisesOwnFailure (s : Snippet) : Bool :=
  !s.parses || !selfContained s

/-- A snippet handles an error when it catches at least one exception
class; no snippet of the module contains an exception handler. -/
def handlesAnyError (s : Snippet) : Bool :=
  !s.handlers.isEmpty

/-! ## The post-save signal receiver (snippet 2)

The state touched by a save of a User instance is the users table and the
userprofiles table. The framework inserts or updates the saved row and
then dispatches the post_save signal for sender User, which invokes the
receiver create_user_profile defined at lines 28 to 31 of the source. -/

structure UserRow where
  id : Nat
  is_employee : Bool
deriving DecidableEq

structure UserProfileRow where
  user : Nat
  bio : List Nat
deriving DecidableEq

structure DB where
  users : List UserRow
  userprofiles : List UserProfileRow
deriving DecidableEq

/-- The receiver at lines 28 to 31: on a post_save signal for User, if the
instance was just created, create a UserProfile row linked to it (the bio
field is not passed, so it takes the empty-string field default). The
source names the saved row parameter instance, a reserved word here. -/
def create_user_profile (db : DB) (inst : UserRow) (created : Bool) : DB :=
  if created then
    DB.mk db.users (db.userprofiles ++ [UserProfileRow.mk inst.id []])
  else db

/-- Framework model of saving a User instance: insert the row when it is
new, overwrite the row with its id otherwise, then dispatch the post_save
signal, which runs the registered receiver create_user_profile. -/
def saveUser (db : DB) (u : UserRow) (created : Bool) : DB :=
  let db1 :=
    if created then DB.mk (db.users ++ [u]) db.userprofiles
    else DB.mk (db.users.map (fun v => if v.id = u.id then u else v))
           db.userprofiles
  create_user_profile db1 u created

/-! ## The proxy model and its manager (snippet 7) -/

/-- Declaration shape of a model that subclasses an existing concrete
model: whether it is a proxy (no table of its own) and which new stored
fields it declares. -/
structure ProxyModelDecl where
  proxy : Bool
  declaredFields : List String
deriving DecidableEq

/-- The proxy model Employee at lines 102 to 105: Meta.proxy is True and
the class body declares a manager but no new stored field. -/
def Employee : ProxyModelDecl := ProxyModelDecl.mk true []

/-- The manager at lines 98 to 100: get_queryset restricts the default
queryset over the User table to the rows whose is_employee field is true. -/
def EmployeeManager.get_queryset (db : List UserRow) : List UserRow :=
  db.filter (fun u => u.is_employee)

/-! ## Data-migration functions (snippets 6 and 12)

Python strings are lists of code points; str.upper is modelled on the
ASCII letters. -/

/-- ASCII model of str.upper on one code point: lowercase letters 97..122
map to 65..90, every other code point is fixed. -/
def pyUpperChar (c : Nat) : Nat :=
  if 97 ≤ c ∧ c ≤ 122 then c - 32 else c

/-- ASCII model of str.upper on a string. -/
def pyUpper (s : List Nat) : List Nat :=
  s.map pyUpperChar

/-- A Product row as declared at lines 40 to 43: a name and an is_active
flag. -/
structure ProductRow where
  name : List Nat
  is_active : Bool
deriving DecidableEq

/-- The forward data migration at lines 74 to 78: for every Product row,
set its name to the uppercase of its name and save the row. -/
def do_something (db : List ProductRow) : List ProductRow :=
  db.map (fun p => ProductRow.mk (pyUpper p.name) p.is_active)

structure OldModelRow where
  name : List Nat
deriving DecidableEq

structure NewModelRow where
  name : List Nat
deriving DecidableEq

structure MigrationDB where
  olds : List OldModelRow
  news : List NewModelRow
deriving DecidableEq

/-- The data migration at lines 163 to 167: for every OldModel row, create
a NewModel row with the same name; OldModel rows are only read. -/
def copy_data (db : MigrationDB) : MigrationDB :=
  MigrationDB.mk db.olds
    (db.news ++ db.olds.map (fun o => NewModelRow.mk o.name))

/-! ## Abstract base declarations (snippets 1 and 9) -/

/-- Declaration shape of a model class: whether its Meta marks it
abstract, and the names of the fields its instances carry. -/
structure ModelDecl where
  abstract : Bool
  fields : List String
deriving DecidableEq

/-- Lines 11 to 16: an abstract mixin declaring created_at and
updated_at. -/
def TimestampMixin : ModelDecl :=
  ModelDecl.mk true ["created_at", "updated_at"]

/-- Lines 18 to 19: Author inherits the mixin fields and declares name. -/
def Author : ModelDecl :=
  ModelDecl.mk false (TimestampMixin.fields ++ ["name"])

/-- Lines 122 to 127: an abstract base declaring created_at and
updated_at. -/
def BaseModel : ModelDecl :=
  ModelDecl.mk true ["created_at", "updated_at"]

/-- Lines 129 to 130: Customer inherits the base fields and declares
name. -/
def Customer : ModelDecl :=
  ModelDecl.mk false (BaseModel.fields ++ ["name"])

/-- A declaration gets a storage table of its own exactly when it is not
abstract. -/
def hasOwnTable (m : ModelDecl) : Bool :=
  !m.abstract

/-! ## Theorems -/

/-- Claim C1, counterexample: the snippets are not order-independent.
Exchanging snippets 3 and 10 is a reordering of the sixteen snippets, yet
it changes the final binding of the declared class name Product (from the
index-optimization declaration at lines 136 to 144 to the manager
declaration at lines 40 to 43). -/
theorem c1_counterexample :
    moduleSnippetsReordered.Perm moduleSnippets ∧
    evalSnippets moduleSnippetsReordered "Product" ≠
      evalSnippets moduleSnippets "Product" := by
  constructor
  · decide
  · decide

/-- Claim C1, amended: the snippets are not order-independent, since
Product, Employee, Migration and do_something are each bound by more than
one snippet and exchanging snippets 3 and 10 changes the final binding of
Product; what does hold is a local independence: exchanging two adjacent
snippets that do not both bind a given name leaves the final binding of
that name unchanged. -/
theorem c1_reorder_binding (pre post : List Snippet) (s t : Snippet)
    (n : String) (h : ¬ (n ∈ s.binds ∧ n ∈ t.binds)) :
    evalSnippets (pre ++ s :: t :: post) n =
      evalSnippets (pre ++ t :: s :: post) n := by
  unfold evalSnippets
  rw [List.foldl_append, List.foldl_append]
  simp only [List.foldl_cons]
  congr 1
  unfold bindStep
  by_cases hs : n ∈ s.binds <;> by_cases ht : n ∈ t.binds
  · exact absurd ⟨hs, ht⟩ h
  · simp [hs, ht]
  · simp [hs, ht]
  · simp [hs, ht]

/-- Witness for c1_reorder_binding: snippets 1 and 3 do not both bind
Author, and exchanging them preserves the final binding of Author. -/
theorem c1_witness :
    ¬ ("Author" ∈ snippet1.binds ∧ "Author" ∈ snippet3.binds) ∧
    evalSnippets ([] ++ snippet1 :: snippet3 :: []) "Author" =
      evalSnippets ([] ++ snippet3 :: snippet1 :: []) "Author" :=
  ⟨by decide, c1_reorder_binding [] [] snippet1 snippet3 "Author" (by decide)⟩

/-- Claim C2, counterexample: the query-expressions snippet is a snippet
of the module and is not self-contained, because it references Book,
which neither the snippet nor any import statement of the module binds. -/
theorem c2_counterexample :
    snippet5 ∈ moduleSnippets ∧ selfContained snippet5 = false := by
  constructor
  · decide
  · decide

/-- Claim C2, amended: every snippet of the module other than the
query-expressions snippet (snippet 5) is self-contained, so evaluating it
together with the imports resolves every name it references. -/
theorem c2_self_contained :
    ∀ s ∈ moduleSnippets, s.id ≠ 5 → selfContained s = true := by
  decide

/-- Witness for c2_self_contained at the mixin snippet. -/
theorem c2_witness :
    snippet1 ∈ moduleSnippets ∧ snippet1.id ≠ 5 ∧
      selfContained snippet1 = true :=
  ⟨by decide, by decide, c2_self_contained snippet1 (by decide) (by decide)⟩

/-- Claim C10, counterexample: the query-expressions snippet raises a
failure that originates in this repository (the undefined name Book). -/
theorem c10_counterexample :
    snippet5 ∈ moduleSnippets ∧ raisesOwnFailure snippet5 = true := by
  constructor
  · decide
  · decide

/-- Claim C10, amended: no snippet of the module handles an error, and
every snippet outside the set consisting of the query-expressions snippet
(undefined name Book), the squash-migrations usage line, the reversible
RunPython and custom-operation examples (comment-only bodies) and the
merge-conflict prose raises no failure originating in this repository. -/
theorem c10_no_own_errors :
    ∀ s ∈ moduleSnippets, handlesAnyError s = false ∧
      (s.id ∉ ([5, 11, 13, 14, 16] : List Nat) →
        raisesOwnFailure s = false) := by
  decide

/-- Witness for c10_no_own_errors at the mixin snippet. -/
theorem c10_witness :
    snippet1 ∈ moduleSnippets ∧ handlesAnyError snippet1 = false ∧
      raisesOwnFailure snippet1 = false :=
  ⟨by decide, (c10_no_own_errors snippet1 (by decide)).1,
    (c10_no_own_errors snippet1 (by decide)).2 (by decide)⟩

/-- Claim C3, counterexample: saving a newly created User from the empty
state changes the userprofiles table, a state change outside the saved
row performed by the repository receiver create_user_profile. -/
theorem c3_counterexample :
    (saveUser (DB.mk [] []) (UserRow.mk 0 false) true).userprofiles ≠
      (DB.mk [] []).userprofiles := by
  decide

/-- Claim C3, amended: a save of an existing User row (created false)
changes no state outside the users table; on creation of a User, the
receiver create_user_profile defined in this repository inserts exactly
one UserProfile row linked to the new user, a lifecycle rule implemented
by repository code. -/
theorem c3_save_effects (db : DB) (u : UserRow) :
    (saveUser db u false).userprofiles = db.userprofiles ∧
    (saveUser db u true).userprofiles =
      db.userprofiles ++ [UserProfileRow.mk u.id []] := by
  constructor <;> simp [saveUser, create_user_profile]

/-- Claim C5: the Employee proxy declaration sets proxy and declares no
new stored field, and the manager get_queryset returns exactly the User
rows whose is_employee field is true. -/
theorem c5_proxy_employee :
    Employee.proxy = true ∧ Employee.declaredFields = [] ∧
    ∀ (db : List UserRow) (u : UserRow),
      u ∈ EmployeeManager.get_queryset db ↔ u ∈ db ∧ u.is_employee = true := by
  refine ⟨rfl, rfl, ?_⟩
  intro db u
  simp [EmployeeManager.get_queryset, List.mem_filter]

/-- Claim C6: after the data migration do_something, the row at every
position has as name the uppercase of the previous name at that position,
and its is_active field is unchanged. -/
theorem c6_do_something_uppercases (db : List ProductRow) (i : Nat) :
    ((do_something db)[i]?).map (fun p => p.name) =
      (db[i]?).map (fun p => pyUpper p.name) ∧
    ((do_something db)[i]?).map (fun p => p.is_active) =
      (db[i]?).map (fun p => p.is_active) := by
  cases hdb : db[i]? with
  | none => simp [do_something, List.getElem?_map, hdb]
  | some p => simp [do_something, List.getElem?_map, hdb]

/-- Uppercasing one code point is idempotent: an uppercase image lies in
65..90 and is therefore fixed by a second application. -/
theorem pyUpperChar_idem (c : Nat) :
    pyUpperChar (pyUpperChar c) = pyUpperChar c := by
  simp only [pyUpperChar]
  split_ifs <;> omega

/-- Uppercasing a string is idempotent. -/
theorem pyUpper_idem (s : List Nat) : pyUpper (pyUpper s) = pyUpper s := by
  induction s with
  | nil => rfl
  | cons a l ih =>
    simp only [pyUpper, List.map_cons] at ih ⊢
    rw [pyUpperChar_idem, ih]

/-- Claim C9: the data migration do_something is idempotent; running it a
second time uppercases names that are already uppercase and changes
nothing. -/
theorem c9_do_something_idempotent (db : List ProductRow) :
    do_something (do_something db) = do_something db := by
  induction db with
  | nil => rfl
  | cons p l ih =>
    simp only [do_something, List.map_cons] at ih ⊢
    rw [pyUpper_idem, ih]

/-- Claim C7: copy_data leaves the OldModel rows unchanged, creates one
NewModel row per OldModel row, and for every OldModel row some NewModel
row afterwards carries its name. -/
theorem c7_copy_data_spec (db : MigrationDB) :
    (copy_data db).olds = db.olds ∧
    (copy_data db).news.length = db.news.length + db.olds.length ∧
    ∀ o ∈ db.olds, ∃ nr ∈ (copy_data db).news, nr.name = o.name := by
  refine ⟨rfl, by simp [copy_data], ?_⟩
  intro o ho
  refine ⟨NewModelRow.mk o.name, ?_, rfl⟩
  simp only [copy_data, List.mem_append, List.mem_map]
  exact Or.inr ⟨o, ho, rfl⟩

/-- Witness for c7_copy_data_spec: from a state with one OldModel row
named by the code point 98 and no NewModel row, copy_data produces a
NewModel row carrying that name. -/
theorem c7_witness :
    ∃ nr ∈ (copy_data (MigrationDB.mk [OldModelRow.mk [98]] [])).news,
      nr.name = (OldModelRow.mk [98]).name :=
  (c7_copy_data_spec (MigrationDB.mk [OldModelRow.mk [98]] [])).2.2
    (OldModelRow.mk [98]) (by decide)

/-- Claim C8: the abstract declarations TimestampMixin and BaseModel have
no storage table of their own, and the concrete models Author and
Customer carry created_at and updated_at in addition to their own name
field. -/
theorem c8_abstract_bases :
    hasOwnTable TimestampMixin = false ∧ hasOwnTable BaseModel = false ∧
    "created_at" ∈ Author.fields ∧ "updated_at" ∈ Author.fields ∧
    "name" ∈ Author.fields ∧
    "created_at" ∈ Customer.fields ∧ "updated_at" ∈ Customer.fields ∧
    "name" ∈ Customer.fields := by
  decide
